import Mathlib

/-!
Shallow embedding of the HyprSTT recording/transcription core
(src/src/audio_capture.py, src/src/main.py, src/src/whisper_processor.py).

Conventions of the embedding:
* int16 samples from the microphone stream are modelled as integers (`ℤ`);
  a frame is one chunk of samples (`stream.read(self.chunk)`), modelled as
  `List ℤ`.
* float amplitudes and wall-clock times (`time.time()`, seconds) are
  modelled as rationals (`ℚ`); the numeric comparisons in the source only
  involve values far from the rounding granularity of float64, so the
  rational model agrees with the float computation on all inputs of
  interest.
* side effects (desktop notifications, state-file writes, background
  thread dispatch) are modelled as an explicit event list produced by each
  operation.
* each operation translates one Python method; the doc comment of each
  definition names the source location it embeds.
-/

namespace HyprSTT

/-- One chunk of int16 samples as produced by `stream.read(self.chunk)`
(src/src/audio_capture.py line 217). -/
abbrev Frame := List ℤ

/-- State of the `AudioCapture` object (src/src/audio_capture.py lines
33-58): device sample rate (`self.rate`), chunk size, the recording flag,
the frame buffer and the stored diagnostic level `self.last_audio_level`. -/
structure AudioCapture where
  rate : ℕ
  chunk : ℕ
  recording : Bool
  frames : List Frame
  lastLevel : ℚ
deriving DecidableEq, Repr

/-- Fresh `AudioCapture` as built by `__init__`
(src/src/audio_capture.py lines 53-58): not recording, empty frame buffer,
`last_audio_level = 0.0`. -/
def AudioCapture.init (rate chunk : ℕ) : AudioCapture :=
  { rate := rate, chunk := chunk, recording := false, frames := [], lastLevel := 0 }

/-- `min_frames = int(0.5 * self.rate / self.chunk)`
(src/src/audio_capture.py line 114).  For integer `rate` and `chunk` the
float expression `0.5 * rate / chunk` is exact up to float64 rounding that
never crosses an integer boundary (the quotient is a rational with
denominator `2 * chunk`), so `int(...)` (truncation of a nonnegative
value) equals natural floor division by `2 * chunk`. -/
def minFrames (rate chunk : ℕ) : ℕ := rate / (2 * chunk)

/-- numpy absolute value of an int16 sample: `np.abs` on an int16 array
keeps dtype int16, and two's-complement negation wraps at the minimum
value, so `np.abs(-32768) = -32768` while every other value maps to its
ordinary absolute value (the arrays here come from
`np.frombuffer(frame, dtype=np.int16)`, src/src/audio_capture.py
line 125). -/
def absInt16 (s : ℤ) : ℤ := if s = -32768 then -32768 else s.natAbs

/-- The level the program computes: `np.abs(audio_data).mean()` on the
int16 sample array (src/src/audio_capture.py line 131,
src/src/whisper_processor.py line 135), with `np.abs` wrapping at
-32768.  On buffers free of full-scale negative samples this is the mean
absolute amplitude; a -32768 sample contributes -32768 instead of
+32768. -/
def audioLevel (samples : List ℤ) : ℚ :=
  ((samples.map fun s => ((absInt16 s : ℚ))).sum) / (samples.length : ℚ)

/-- The mean absolute amplitude in the spec's words (`audioLevel`:
"mean absolute amplitude"), written with the exact absolute value; kept
separate from `audioLevel` so the divergence of the program's computed
level on full-scale negative samples can be stated. -/
def specMeanAbs (samples : List ℤ) : ℚ :=
  ((samples.map fun s => ((s.natAbs : ℚ))).sum) / (samples.length : ℚ)

/-- Silence padding applied when the recording is shorter than
`min_frames` (src/src/audio_capture.py lines 115-121): extend the frame
list with `min_frames - len(frames)` all-zero chunks. -/
def padFrames (rate chunk : ℕ) (frames : List Frame) : List Frame :=
  if frames.length < minFrames rate chunk then
    frames ++ List.replicate (minFrames rate chunk - frames.length)
      (List.replicate chunk (0 : ℤ))
  else frames

/-- Finalization part of `stop_recording` after the recording flag has been
cleared and the observer notified (src/src/audio_capture.py lines
106-157): empty-buffer check, silence padding (which mutates
`self.frames`), concatenation, level computation stored into
`self.last_audio_level`, and the silence-rejection thresholds
(`audio_level < 500` only warns, `audio_level < 50` returns `None`). -/
def stopFinalize (a : AudioCapture) : AudioCapture × Option (List ℤ × ℕ) :=
  if a.frames = [] then (a, none)
  else
    let fs := padFrames a.rate a.chunk a.frames
    let samples := fs.flatten
    let lvl := audioLevel samples
    let a2 : AudioCapture := { a with frames := fs, lastLevel := lvl }
    if lvl < 50 then (a2, none) else (a2, some (samples, a.rate))

/-- `AudioCapture.stop_recording` (src/src/audio_capture.py lines 91-157),
viewed at the capture object alone (the `on_recording_change` observer is
handled at the controller level, see `controllerStop`): a no-op returning
`None` when not recording, otherwise clear the flag and finalize. -/
def stop_recording (a : AudioCapture) : AudioCapture × Option (List ℤ × ℕ) :=
  if a.recording then stopFinalize { a with recording := false } else (a, none)

/-- `AudioCapture.start_recording` (src/src/audio_capture.py lines 72-89),
capture object alone: no-op when already recording, otherwise clear the
frame buffer and set the flag (the capture thread and the observer call
are modelled separately). -/
def start_recording (a : AudioCapture) : AudioCapture :=
  if a.recording then a else { a with frames := [], recording := true }

/-- One iteration of the capture loop appending a freshly read chunk
(src/src/audio_capture.py lines 217-218). -/
def appendFrame (a : AudioCapture) (f : Frame) : AudioCapture :=
  { a with frames := a.frames ++ [f] }

/-! ## Controller model (src/src/main.py) -/

/-- The slice of the loaded configuration the core reads
(src/src/main.py lines 74-97, `ui` section). -/
structure Config where
  notifications : Bool
  notificationTimeout : ℕ
deriving DecidableEq, Repr

/-- Observable side effects of the controller, in emission order:
desktop notifications (`create_notification` title/body), whole-file
state-file writes (`_write_state`), and the spawn of a background
transcription thread carrying its `transcription_id`, the finalized
samples and the sample rate (src/src/main.py lines 402-411). -/
inductive Event where
  | notify (title body : String)
  | writeState (s : String)
  | dispatch (tid : ℤ) (samples : List ℤ) (srate : ℕ)
deriving DecidableEq, Repr

/-- Controller state (src/src/main.py lines 48-59): the recording flag,
the initialized flag, the debounce timestamp `self._last_toggle_time`
(absent until the first accepted toggle, hence `Option`), the owned
`AudioCapture`, and the current content of the on-disk state file
(modelled as a string since `_write_state` replaces the whole file). -/
structure Controller where
  isRec : Bool
  initialized : Bool
  lastToggleTime : Option ℚ
  capture : AudioCapture
  stateFile : String
deriving DecidableEq, Repr

/-- Controller as set up by `__init__` (src/src/main.py lines 48-59): not
recording, no debounce timestamp yet, state file initialized to `idle`
via `_write_state("idle")`; whether initialization of the components
succeeded is a parameter (`self.initialized` is set by
`_init_components`). -/
def Controller.init (cap : AudioCapture) (inited : Bool) : Controller :=
  { isRec := false, initialized := inited, lastToggleTime := none,
    capture := cap, stateFile := "idle" }

/-- `_write_state` (src/src/main.py lines 319-325): overwrite the state
file with the given token (the `open(..., 'w')` mode truncates, so the
file content is replaced as a whole). -/
def writeStateFile (c : Controller) (s : String) : Controller × List Event :=
  ({ c with stateFile := s }, [Event.writeState s])

/-- `_on_recording_changed` (src/src/main.py lines 327-354): update
`self.is_recording`, mirror it to the state file (`recording` when
recording, `idle` otherwise), and post the start/processing notification
when notifications are enabled. -/
def onRecordingChanged (cfg : Config) (c : Controller) (isRec : Bool) :
    Controller × List Event :=
  let c1 : Controller := { c with isRec := isRec }
  let r := writeStateFile c1 (if isRec then "recording" else "idle")
  if cfg.notifications then
    (r.1, r.2 ++ [Event.notify "HyprSTT"
      (if isRec then "Recording started..." else "Processing speech...")])
  else (r.1, r.2)

/-- `audio_capture.stop_recording()` as invoked by the controller
(src/src/audio_capture.py lines 91-157): when the capture is recording,
the flag is cleared, then `on_recording_change(False)` runs (flowing into
`_on_recording_changed` on the controller), and only then is the buffer
finalized.  Returns the updated controller, the emitted events and the
optional `(samples, rate)` result. -/
def controllerStop (cfg : Config) (c : Controller) :
    Controller × List Event × Option (List ℤ × ℕ) :=
  if c.capture.recording then
    let c1 : Controller := { c with capture := { c.capture with recording := false } }
    let r2 := onRecordingChanged cfg c1 false
    let r3 := stopFinalize r2.1.capture
    ({ r2.1 with capture := r3.1 }, r2.2, r3.2)
  else (c, [], none)

/-- `audio_capture.start_recording()` as invoked by the controller
(src/src/audio_capture.py lines 72-89): no-op when already recording,
otherwise clear the frame buffer, set the flag, and run
`on_recording_change(True)`. -/
def controllerStart (cfg : Config) (c : Controller) : Controller × List Event :=
  if c.capture.recording then (c, [])
  else
    let c1 : Controller := { c with capture := { c.capture with frames := [], recording := true } }
    onRecordingChanged cfg c1 true

/-- Python `int()` applied to a `time.time()` value: truncation toward
zero (src/src/main.py line 402).  `time.time()` is nonnegative, where
truncation coincides with the floor. -/
def pyInt (q : ℚ) : ℤ := if 0 ≤ q then ⌊q⌋ else ⌈q⌉

/-- The debounce test (src/src/main.py lines 386-391): a toggle is
ignored when `self._last_toggle_time` exists and less than half a second
has passed since it. -/
def debounceReject (c : Controller) (now : ℚ) : Bool :=
  match c.lastToggleTime with
  | some tl => decide (now - tl < 1 / 2)
  | none => false

/-- `_toggle_recording` (src/src/main.py lines 377-418), with its two
`time.time()` reads passed explicitly: `now` is the debounce read at
line 386, and `tid` is the separate read at line 402 taken after
`stop_recording()` returns (which includes a thread join with a bounded
2-second timeout), from which `transcription_id = int(time.time())` is
formed.  The reads are distinct instants of the same monotone clock, so
`now ≤ tid`; theorems impose this through the ordering of `clockReads`.
Uninitialized controllers return immediately; debounced calls return
before touching `self._last_toggle_time`; accepted calls record the
timestamp, then either stop (dispatching a background transcription
thread with identifier `int(tid)` when audio data was returned) or
start a recording. -/
def toggle_recording (cfg : Config) (c : Controller) (now tid : ℚ) :
    Controller × List Event :=
  if c.initialized = false then (c, [])
  else if debounceReject c now then (c, [])
  else
    let c1 : Controller := { c with lastToggleTime := some now }
    if c1.isRec then
      let r := controllerStop cfg c1
      match r.2.2 with
      | some (samples, srate) =>
          (r.1, r.2.1 ++ [Event.dispatch (pyInt tid) samples srate])
      | none => (r.1, r.2.1)
    else controllerStart cfg c1

/-- One observable step of the running system: either the capture loop
reads one chunk from the stream and appends it
(src/src/audio_capture.py lines 203-218, effective only while the
capture flag is set), or `_toggle_recording` is invoked, carrying its
two `time.time()` readings (`t` at the debounce check, `tid` at the
identifier assignment after the stop's bounded join). -/
inductive SysStep where
  | capture (f : Frame)
  | toggle (t tid : ℚ)
deriving DecidableEq, Repr

/-- Interleaved execution of capture-loop reads and toggle invocations,
collecting all emitted events in order. -/
def runSystem (cfg : Config) (c : Controller) : List SysStep → Controller × List Event
  | [] => (c, [])
  | SysStep.capture f :: steps =>
      let c1 : Controller :=
        if c.capture.recording then { c with capture := appendFrame c.capture f } else c
      runSystem cfg c1 steps
  | SysStep.toggle t tid :: steps =>
      let r := toggle_recording cfg c t tid
      let r2 := runSystem cfg r.1 steps
      (r2.1, r.2 ++ r2.2)

/-- The successive `time.time()` readings of a step list, in program
order (a toggle reads the clock at the debounce check and again at the
identifier assignment).  A monotone clock makes this list sorted. -/
def clockReads (steps : List SysStep) : List ℚ :=
  steps.flatMap fun s =>
    match s with
    | SysStep.toggle t tid => [t, tid]
    | _ => []

/-- The `transcription_id` values of the dispatched background
transcription threads, in dispatch order. -/
def dispatchIds (evs : List Event) : List ℤ :=
  evs.filterMap fun e =>
    match e with
    | Event.dispatch tid _ _ => some tid
    | _ => none

/-! ## Transcription engine model (src/src/whisper_processor.py) -/

/-- Outcome of the opaque model-inference call (`self.model.transcribe`
plus the temporary-file plumbing around it, src/src/whisper_processor.py
lines 154-214): either a raw text (before `.strip()`) or an exception
message.  The model library is an external collaborator, so its behavior
is a parameter of the embedding. -/
inductive EngineOutcome where
  | ok (text : String)
  | exn (msg : String)
deriving DecidableEq, Repr

/-- State of a `WhisperProcessor` object: the configured language, whether
`self.model` is loaded (`Option`, `None` before `_load_model` succeeds),
and the stored diagnostic `self.last_audio_level`
(src/src/whisper_processor.py lines 46-53). -/
structure WhisperProcessor where
  language : String
  model : Option Unit
  lastLevel : ℚ
deriving DecidableEq, Repr

/-- `WhisperProcessor.__init__` together with `_load_model`
(src/src/whisper_processor.py lines 28-102): on load failure a
`RuntimeError` propagates and no processor object exists; on success the
processor holds a loaded model. -/
def WhisperProcessor.init (language : String) (load : Except String Unit) :
    Except String WhisperProcessor :=
  match load with
  | Except.ok _ =>
      Except.ok { language := language, model := some (), lastLevel := 0 }
  | Except.error m =>
      Except.error (String.append "Failed to load Whisper model: " m)

/-- `WhisperProcessor.transcribe_audio` (src/src/whisper_processor.py
lines 104-247): raises `RuntimeError("Model not loaded")` when
`self.model is None` (line 120, before the `try` block); otherwise
computes the mean absolute level, stores it in `self.last_audio_level`,
returns `""` for exactly-zero or very quiet (`< 30`) audio, and otherwise
runs the engine inside the `try` block, returning the stripped text on
success and `""` when any exception is caught (lines 243-247). -/
def transcribeOp (p : WhisperProcessor) (samples : List ℤ)
    (engine : EngineOutcome) : Except String (String × WhisperProcessor) :=
  match p.model with
  | none => Except.error "Model not loaded"
  | some _ =>
      let lvl := audioLevel samples
      let p1 : WhisperProcessor := { p with lastLevel := lvl }
      if lvl = 0 then Except.ok ("", p1)
      else if lvl < 30 then Except.ok ("", p1)
      else
        match engine with
        | EngineOutcome.ok text => Except.ok (text.trim, p1)
        | EngineOutcome.exn _ => Except.ok ("", p1)

/-! ## Background pipeline model (`_process_audio`, src/src/main.py) -/

/-- Outcomes of the external collaborator calls made by one background
pipeline run: the focused-window query (value: `none` when no window,
`some b` with `b` the `is_text_input` verdict; `HyprlandManager` lives
outside `src/src`, in `src/distribution_package`), the debug-audio save,
the `pactl` microphone probe (value: whether the probe reports a
misconfigured input), and the clipboard text injection.  Each is an
`Except` so the embedding covers any exception a collaborator might
raise. -/
structure PipelineWorld where
  windowQuery : Except String (Option Bool)
  saveDebug : Except String Unit
  micProbe : Except String Bool
  injectStep : Except String Unit
deriving Repr

/-- The hardware-failure notification body (src/src/main.py line 463). -/
def hardwareFailureMsg : String :=
  "NO AUDIO DETECTED! Microphone not working or not capturing any sound. Check device settings."

/-- The misconfigured-microphone notification body
(src/src/main.py line 470). -/
def micConfigMsg : String :=
  "Microphone may not be properly configured. Check audio input settings."

/-- The generic no-speech notification body
(src/src/main.py lines 472 and 476). -/
def noSpeechMsg : String :=
  "Transcription failed or no speech detected. Try speaking longer and clearer."

/-- The 40-character notification preview
(src/src/main.py lines 498 and 505). -/
def previewOf (txt : String) : String :=
  if txt.length > 40 then String.append (txt.take 40) "..." else txt

/-- The body of the `try` block of `_process_audio`
(src/src/main.py lines 427-510): focused-window query (logs only),
transcription, then either the empty-result branch (debug save with its
own swallowed errors, diagnostic message choice keyed on
`self.audio_capture.last_audio_level == 0.0` with the `pactl` probe and
its own swallowed errors, one notification) or the delivery branch (text
injection, then the transcribed notification, annotated when
`self.audio_capture.last_audio_level < 10.0`).  `capLvl` is the value of
`self.audio_capture.last_audio_level` when the pipeline reads it.  An
`error` result is an uncaught exception escaping the body, carrying the
processor state at the raise point. -/
def processBody (cfg : Config) (capLvl : ℚ) (p : WhisperProcessor)
    (samples : List ℤ) (w : PipelineWorld) (engine : EngineOutcome) :
    Except (String × WhisperProcessor) (List Event × WhisperProcessor) :=
  match w.windowQuery with
  | Except.error e => Except.error (e, p)
  | Except.ok _ =>
      match transcribeOp p samples engine with
      | Except.error e => Except.error (e, p)
      | Except.ok (txt, p1) =>
          if txt = "" then
            if cfg.notifications then
              let msg :=
                if capLvl = 0 then hardwareFailureMsg
                else
                  match w.micProbe with
                  | Except.ok true => micConfigMsg
                  | Except.ok false => noSpeechMsg
                  | Except.error _ => noSpeechMsg
              Except.ok ([Event.notify "HyprSTT" msg], p1)
            else Except.ok ([], p1)
          else
            match w.injectStep with
            | Except.error e => Except.error (e, p1)
            | Except.ok _ =>
                if cfg.notifications then
                  if capLvl < 10 then
                    Except.ok ([Event.notify "HyprSTT"
                      (String.append "Transcribed (low audio level!): " (previewOf txt))], p1)
                  else
                    Except.ok ([Event.notify "HyprSTT"
                      (String.append "Transcribed: " (previewOf txt))], p1)
                else Except.ok ([], p1)

/-- `_process_audio` (src/src/main.py lines 420-519): the body runs under
a catch-all `except Exception` handler that logs and, when notifications
are enabled, posts a single failure notification; nothing propagates to
the caller (the background thread). -/
def processRun (cfg : Config) (capLvl : ℚ) (p : WhisperProcessor)
    (samples : List ℤ) (w : PipelineWorld) (engine : EngineOutcome) :
    List Event × WhisperProcessor :=
  match processBody cfg capLvl p samples w engine with
  | Except.ok r => r
  | Except.error (e, p1) =>
      ((if cfg.notifications then
          [Event.notify "HyprSTT" (String.append "Error processing audio: " e)]
        else []), p1)

/-- `_process_audio` viewed at the controller: the method reads
`self.audio_capture.last_audio_level` and mutates only the whisper
processor object; it performs no assignment to any controller attribute
(src/src/main.py lines 420-519 contain no write to `self.is_recording`,
`self.initialized` or the controller fields), so the controller state
passes through unchanged by construction. -/
def processCtrl (cfg : Config) (c : Controller) (p : WhisperProcessor)
    (samples : List ℤ) (w : PipelineWorld) (engine : EngineOutcome) :
    Controller × WhisperProcessor × List Event :=
  let r := processRun cfg c.capture.lastLevel p samples w engine
  (c, r.2, r.1)

/-- Whether the event list contains a notification with the given body. -/
def mentionsNotify (evs : List Event) (body : String) : Bool :=
  evs.any fun e =>
    match e with
    | Event.notify _ b => b == body
    | _ => false

/-- Whether every state-file write in the event list carries one of the
three legal tokens. -/
def stateTokenCheck (evs : List Event) : Bool :=
  evs.all fun e =>
    match e with
    | Event.writeState s => s == "idle" || s == "recording" || s == "processing"
    | _ => true

/-- Executable statement that `processRun` behaves as the catch-all
handler of `_process_audio`: it returns the body's events when the body
succeeds, and exactly the single failure notification (none when
notifications are disabled) when the body raises, with the processor
state taken from the raise point. -/
def pipelineCatchCheck (cfg : Config) (capLvl : ℚ) (p : WhisperProcessor)
    (samples : List ℤ) (w : PipelineWorld) (engine : EngineOutcome) : Bool :=
  match processBody cfg capLvl p samples w engine with
  | Except.ok (evs, p1) =>
      processRun cfg capLvl p samples w engine == (evs, p1)
  | Except.error (e, p1) =>
      processRun cfg capLvl p samples w engine ==
        ((if cfg.notifications then
            [Event.notify "HyprSTT" (String.append "Error processing audio: " e)]
          else []), p1)

/-- Executable statement that `transcribeOp` raises no exception and
returns either the empty string or the stripped engine text. -/
def transcribeTotalCheck (p : WhisperProcessor) (samples : List ℤ)
    (engine : EngineOutcome) : Bool :=
  match transcribeOp p samples engine with
  | Except.ok (txt, _) =>
      txt == "" ||
        (match engine with
         | EngineOutcome.ok raw => txt == raw.trim
         | EngineOutcome.exn _ => false)
  | Except.error _ => false

/-! ## Helper lemmas -/

theorem flatten_replicate_replicate (k c : ℕ) :
    (List.replicate k (List.replicate c (0 : ℤ))).flatten = List.replicate (k * c) 0 := by
  induction k with
  | zero => simp
  | succ n ih =>
      rw [List.replicate_succ, List.flatten_cons, ih, ← List.replicate_add]
      congr 1
      ring

theorem absInt16_of_ne (s : ℤ) (h : s ≠ -32768) : absInt16 s = (s.natAbs : ℤ) := by
  unfold absInt16
  rw [if_neg h]

theorem absInt16_nonneg (s : ℤ) (h : s ≠ -32768) : (0 : ℚ) ≤ ((absInt16 s : ℚ)) := by
  rw [absInt16_of_ne s h]
  positivity

theorem audioLevel_append_zeros (xs : List ℤ) (k : ℕ) :
    audioLevel (xs ++ List.replicate k 0) =
      ((xs.map fun s => ((absInt16 s : ℚ))).sum) / ((xs.length : ℚ) + (k : ℚ)) := by
  unfold audioLevel
  rw [List.map_append, List.map_replicate, List.sum_append, List.length_append]
  norm_num [absInt16]

theorem audioLevel_all_zero (xs : List ℤ) (h : ∀ s ∈ xs, s = (0 : ℤ)) :
    audioLevel xs = 0 := by
  unfold audioLevel
  have hmap : (xs.map fun s => ((absInt16 s : ℚ))).sum = 0 := by
    refine List.sum_eq_zero ?_
    intro x hx
    rcases List.mem_map.mp hx with ⟨s, hs, rfl⟩
    simp [h s hs, absInt16]
  rw [hmap, zero_div]

/-- Flattening the padded buffer appends `(min_frames - len) * chunk`
zero samples to the captured samples, provided every captured frame has
`chunk` samples. -/
theorem flatten_padFrames (rate chunk : ℕ) (fs : List Frame)
    (hshort : fs.length < minFrames rate chunk) :
    (padFrames rate chunk fs).flatten =
      fs.flatten ++ List.replicate ((minFrames rate chunk - fs.length) * chunk) 0 := by
  unfold padFrames
  rw [if_pos hshort, List.flatten_append, flatten_replicate_replicate]

theorem length_flatten_of_chunks (chunk : ℕ) (fs : List Frame)
    (hlen : ∀ f ∈ fs, f.length = chunk) :
    fs.flatten.length = fs.length * chunk := by
  rw [List.length_flatten]
  induction fs with
  | nil => simp
  | cons f t ih =>
      have hf : f.length = chunk := hlen f (List.mem_cons_self f t)
      have ht : ∀ g ∈ t, g.length = chunk := fun g hg => hlen g (List.mem_cons_of_mem f hg)
      simp [hf, ih ht, Nat.succ_mul, Nat.add_comm]

/-- The result component of `stop_recording` in the normal case is the
50-threshold decision on the level of the padded, flattened buffer. -/
theorem stop_recording_result (a : AudioCapture) (hrec : a.recording = true)
    (hne : a.frames ≠ []) :
    (stop_recording a).2 =
      (if audioLevel (padFrames a.rate a.chunk a.frames).flatten < 50 then none
       else some ((padFrames a.rate a.chunk a.frames).flatten, a.rate)) := by
  unfold stop_recording stopFinalize
  simp only [hrec, if_true]
  simp only [if_neg hne]
  by_cases hl : audioLevel (padFrames a.rate a.chunk a.frames).flatten < 50
  · simp [hl]
  · simp [hl]

/-- The capture state after `stop_recording` in the normal case: flag
cleared, frames replaced by the padded buffer, level stored. -/
theorem stop_recording_state (a : AudioCapture) (hrec : a.recording = true)
    (hne : a.frames ≠ []) :
    (stop_recording a).1 =
      { a with recording := false,
               frames := padFrames a.rate a.chunk a.frames,
               lastLevel := audioLevel (padFrames a.rate a.chunk a.frames).flatten } := by
  unfold stop_recording stopFinalize
  simp only [hrec, if_true]
  simp only [if_neg hne]
  by_cases hl : audioLevel (padFrames a.rate a.chunk a.frames).flatten < 50
  · simp [hl]
  · simp [hl]

theorem onRecordingChanged_fields (cfg : Config) (c : Controller) (b : Bool) :
    ((onRecordingChanged cfg c b).1).lastToggleTime = c.lastToggleTime ∧
    ((onRecordingChanged cfg c b).1).initialized = c.initialized ∧
    ((onRecordingChanged cfg c b).1).capture = c.capture ∧
    ((onRecordingChanged cfg c b).1).isRec = b ∧
    ((onRecordingChanged cfg c b).1).stateFile = (if b then "recording" else "idle") := by
  unfold onRecordingChanged writeStateFile
  by_cases hn : cfg.notifications <;> simp [hn]

theorem onRecordingChanged_events (cfg : Config) (c : Controller) (b : Bool) :
    (onRecordingChanged cfg c b).2 =
      Event.writeState (if b then "recording" else "idle") ::
        (if cfg.notifications then
          [Event.notify "HyprSTT"
            (if b then "Recording started..." else "Processing speech...")]
         else []) := by
  unfold onRecordingChanged writeStateFile
  by_cases hn : cfg.notifications <;> simp [hn]

theorem controllerStop_fields (cfg : Config) (c : Controller) :
    ((controllerStop cfg c).1).lastToggleTime = c.lastToggleTime ∧
    ((controllerStop cfg c).1).initialized = c.initialized := by
  unfold controllerStop
  by_cases h : c.capture.recording
  · simp only [h, if_true]
    constructor
    · exact (onRecordingChanged_fields cfg _ false).1
    · exact (onRecordingChanged_fields cfg _ false).2.1
  · simp [h]

theorem controllerStart_fields (cfg : Config) (c : Controller) :
    ((controllerStart cfg c).1).lastToggleTime = c.lastToggleTime ∧
    ((controllerStart cfg c).1).initialized = c.initialized := by
  unfold controllerStart
  by_cases h : c.capture.recording
  · simp [h]
  · simp only [h, if_false, Bool.false_eq_true]
    constructor
    · exact (onRecordingChanged_fields cfg _ true).1
    · exact (onRecordingChanged_fields cfg _ true).2.1

theorem toggle_accepted_lastToggle (cfg : Config) (c : Controller) (t tid : ℚ)
    (hinit : c.initialized = true) (hdeb : debounceReject c t = false) :
    ((toggle_recording cfg c t tid).1).lastToggleTime = some t := by
  unfold toggle_recording
  simp only [hinit, hdeb, Bool.true_eq_false, if_false, Bool.false_eq_true]
  by_cases hr : c.isRec
  · simp only [hr, if_true]
    rcases hm : controllerStop cfg { c with lastToggleTime := some t } with ⟨c2, evs, res⟩
    have := (controllerStop_fields cfg { c with lastToggleTime := some t }).1
    rw [hm] at this
    cases res <;> simp_all
  · simp only [hr, if_false, Bool.false_eq_true]
    have h := (controllerStart_fields cfg { c with lastToggleTime := some t }).1
    simpa [hr, hinit] using h

theorem controllerStop_parts (cfg : Config) (c : Controller)
    (h : c.capture.recording = true) :
    (controllerStop cfg c).2.1 =
      (onRecordingChanged cfg
        { c with capture := { c.capture with recording := false } } false).2 ∧
    (controllerStop cfg c).2.2 =
      (stopFinalize { c.capture with recording := false }).2 ∧
    ((controllerStop cfg c).1).isRec = false := by
  have hcap := (onRecordingChanged_fields cfg
    { c with capture := { c.capture with recording := false } } false).2.2.1
  have hisrec := (onRecordingChanged_fields cfg
    { c with capture := { c.capture with recording := false } } false).2.2.2.1
  refine ⟨?_, ?_, ?_⟩
  · unfold controllerStop
    rw [if_pos h]
  · unfold controllerStop
    rw [if_pos h]
    show (stopFinalize (onRecordingChanged cfg
      { c with capture := { c.capture with recording := false } } false).1.capture).2
      = (stopFinalize { c.capture with recording := false }).2
    rw [hcap]
  · unfold controllerStop
    rw [if_pos h]
    show ((onRecordingChanged cfg
      { c with capture := { c.capture with recording := false } } false).1).isRec = false
    exact hisrec

theorem controllerStart_parts (cfg : Config) (c : Controller)
    (h : c.capture.recording = false) :
    (controllerStart cfg c).2 =
      (onRecordingChanged cfg
        { c with capture := { c.capture with frames := [], recording := true } } true).2 ∧
    ((controllerStart cfg c).1).isRec = true := by
  have hisrec := (onRecordingChanged_fields cfg
    { c with capture := { c.capture with frames := [], recording := true } } true).2.2.2.1
  have hneg : ¬ c.capture.recording = true := by simp [h]
  refine ⟨?_, ?_⟩
  · unfold controllerStart
    rw [if_neg hneg]
  · unfold controllerStart
    rw [if_neg hneg]
    show ((onRecordingChanged cfg
      { c with capture := { c.capture with frames := [], recording := true } } true).1).isRec = true
    exact hisrec

/-- Event trace of an accepted toggle taken in the stop direction: the
observer events (state-file write and the processing notification) from
inside `stop_recording`, followed by the dispatch event exactly when the
finalized buffer was returned. -/
theorem toggle_stop_events (cfg : Config) (c : Controller) (now tid : ℚ)
    (hinit : c.initialized = true) (hdeb : debounceReject c now = false)
    (hrec : c.isRec = true) (hcaprec : c.capture.recording = true) :
    (toggle_recording cfg c now tid).2 =
      (Event.writeState "idle" ::
        (if cfg.notifications then
          [Event.notify "HyprSTT" "Processing speech..."] else [])) ++
      (match (stopFinalize { c.capture with recording := false }).2 with
       | some (samples, srate) => [Event.dispatch (pyInt tid) samples srate]
       | none => []) := by
  unfold toggle_recording
  rw [if_neg (by simp [hinit] : ¬ c.initialized = false)]
  rw [if_neg (by simp [hdeb] : ¬ debounceReject c now = true)]
  rw [if_pos (show ({ c with lastToggleTime := some now } : Controller).isRec = true from hrec)]
  have hparts := controllerStop_parts cfg { c with lastToggleTime := some now } hcaprec
  rcases hparts with ⟨hevs, hres, _⟩
  show (match (controllerStop cfg { c with lastToggleTime := some now }).2.2 with
        | some (samples, srate) =>
            ((controllerStop cfg { c with lastToggleTime := some now }).1,
             (controllerStop cfg { c with lastToggleTime := some now }).2.1
               ++ [Event.dispatch (pyInt tid) samples srate])
        | none =>
            ((controllerStop cfg { c with lastToggleTime := some now }).1,
             (controllerStop cfg { c with lastToggleTime := some now }).2.1)).2
      = _
  rw [hres]
  rcases hval : (stopFinalize { c.capture with recording := false }).2 with _ | ⟨samples, srate⟩
  · show (controllerStop cfg { c with lastToggleTime := some now }).2.1 = _
    rw [hevs, onRecordingChanged_events]
    simp
  · show (controllerStop cfg { c with lastToggleTime := some now }).2.1
        ++ [Event.dispatch (pyInt tid) samples srate] = _
    rw [hevs, onRecordingChanged_events]
    simp

/-! ## Claim C1 -/

/-- C1: a toggle arriving strictly less than 500ms after the previous
accepted toggle is rejected with no state change and no side effect —
`is_recording`, the capture state and `self._last_toggle_time` are all
untouched (the method returns before the timestamp assignment) — and
consequently, of two toggles less than 500ms apart the second is a
no-op, so exactly one accepted state transition takes place. -/
theorem toggle_debounce_single_transition (cfg : Config) (c : Controller)
    (t now tid1 tid2 : ℚ) :
    (∀ tl, c.lastToggleTime = some tl → now - tl < 1 / 2 →
        toggle_recording cfg c now tid2 = (c, [])) ∧
    (c.initialized = true → debounceReject c t = false → now - t < 1 / 2 →
        toggle_recording cfg ((toggle_recording cfg c t tid1).1) now tid2
          = ((toggle_recording cfg c t tid1).1, [])) := by
  have hrej : ∀ (d : Controller) (tl : ℚ), d.lastToggleTime = some tl →
      now - tl < 1 / 2 → toggle_recording cfg d now tid2 = (d, []) := by
    intro d tl htl hlt
    unfold toggle_recording
    by_cases hi : d.initialized
    · have hdr : debounceReject d now = true := by
        unfold debounceReject
        rw [htl]
        simpa using hlt
      simp [hi, hdr]
    · have hif : d.initialized = false := by
        cases hdi : d.initialized
        · rfl
        · exact absurd hdi hi
      simp [hif]
  constructor
  · intro tl htl hlt
    exact hrej c tl htl hlt
  · intro hinit hdeb hlt
    exact hrej ((toggle_recording cfg c t tid1).1) t
      (toggle_accepted_lastToggle cfg c t tid1 hinit hdeb) hlt

/-- C1 witness: a controller whose last accepted toggle was at t = 0
rejects a toggle at t = 1/4 unchanged, and an accepted toggle at t = 0
followed by a toggle at t = 1/4 leaves the post-first-toggle state
untouched. -/
theorem toggle_debounce_single_transition_witness :
    toggle_recording { notifications := true, notificationTimeout := 2 }
      { isRec := false, initialized := true, lastToggleTime := some 0,
        capture := AudioCapture.init 16000 1024, stateFile := "idle" } (1 / 4) (1 / 4)
      = ({ isRec := false, initialized := true, lastToggleTime := some 0,
           capture := AudioCapture.init 16000 1024, stateFile := "idle" }, []) ∧
    toggle_recording { notifications := true, notificationTimeout := 2 }
      ((toggle_recording { notifications := true, notificationTimeout := 2 }
        { isRec := false, initialized := true, lastToggleTime := none,
          capture := AudioCapture.init 16000 1024, stateFile := "idle" } 0 0).1) (1 / 4) (1 / 4)
      = ((toggle_recording { notifications := true, notificationTimeout := 2 }
          { isRec := false, initialized := true, lastToggleTime := none,
            capture := AudioCapture.init 16000 1024, stateFile := "idle" } 0 0).1, []) := by
  constructor
  · exact (toggle_debounce_single_transition _ _ 0 (1 / 4) 0 (1 / 4)).1 0 rfl (by norm_num)
  · exact (toggle_debounce_single_transition _
      { isRec := false, initialized := true, lastToggleTime := none,
        capture := AudioCapture.init 16000 1024, stateFile := "idle" } 0 (1 / 4) 0 (1 / 4)).2
      rfl rfl (by norm_num)

/-! ## Claim C2 -/

/-- C2 counterexample: the recording with device rate 2, chunk size 1 and
the single captured frame `[30]` has a finalized buffer `[30]` (no
padding, since `min_frames = 1`) whose mean absolute amplitude 30 is
strictly positive and below the low-audio threshold, yet `stop_recording`
returns `None` (the `audio_level < 50` branch treats it as a hard
failure), contradicting the claim that low-but-nonzero audio is never a
hard failure. -/
theorem low_nonzero_rejected_cex :
    (0 : ℚ) < audioLevel [30] ∧ audioLevel [30] < 50 ∧
    padFrames 2 1 [[30]] = [[30]] ∧
    (stop_recording
      { rate := 2, chunk := 1, recording := true, frames := [[30]], lastLevel := 0 }).2
      = none := by
  refine ⟨by norm_num [audioLevel, absInt16], by norm_num [audioLevel, absInt16], ?_, ?_⟩
  · norm_num [padFrames, minFrames]
  · norm_num [stop_recording, stopFinalize, padFrames, minFrames, audioLevel, absInt16]

/-- C2 (amended): `stop_recording` applies a 50-threshold to the level
it computes over the finalized (padded) buffer — the mean of `np.abs`,
which on int16 data wraps at -32768 and hence equals the mean absolute
amplitude only for buffers free of full-scale negative samples: a
computed level strictly below 50 — even when nonzero, and even when the
true mean absolute amplitude is large (e.g. a `[-32768]` buffer computes
-32768) — is treated as a hard failure and `None` is returned; at or
above 50 the `(samples, rate)` data is returned (levels in `[50, 500)`
are additionally flagged by a warning for downstream UI messaging, which
the event-free capture model does not record). -/
theorem stop_low_level_policy (a : AudioCapture) (hrec : a.recording = true)
    (hne : a.frames ≠ []) :
    (audioLevel (padFrames a.rate a.chunk a.frames).flatten < 50 →
        (stop_recording a).2 = none) ∧
    (50 ≤ audioLevel (padFrames a.rate a.chunk a.frames).flatten →
        (stop_recording a).2 =
          some ((padFrames a.rate a.chunk a.frames).flatten, a.rate)) := by
  constructor
  · intro h
    rw [stop_recording_result a hrec hne, if_pos h]
  · intro h
    rw [stop_recording_result a hrec hne, if_neg (not_lt.mpr h)]

/-- C2 witness: concrete instance of `stop_low_level_policy` with a
padded buffer of level exactly 50, which is returned as data. -/
theorem stop_low_level_policy_witness :
    (50 : ℚ) ≤ audioLevel (padFrames 5 1 [[100]]).flatten ∧
    (stop_recording
      { rate := 5, chunk := 1, recording := true, frames := [[100]], lastLevel := 0 }).2
      = some ((padFrames 5 1 [[100]]).flatten, 5) := by
  have h50 : (50 : ℚ) ≤ audioLevel (padFrames 5 1 [[100]]).flatten := by
    norm_num [audioLevel, absInt16, padFrames, minFrames]
  exact ⟨h50,
    (stop_low_level_policy
      { rate := 5, chunk := 1, recording := true, frames := [[100]], lastLevel := 0 }
      rfl (by decide)).2 h50⟩

/-! ## Claim C3 -/

/-- C3 counterexample: with device rate 5 and chunk size 1, a session
that captured one frame (0.2 seconds, less than 0.5) is padded to
`min_frames = int(0.5 * 5 / 1) = 2` frames, so `stop_recording` returns
the two-sample buffer `[100, 0]` whose duration 2/5 = 0.4 seconds is
strictly less than 0.5 seconds — the floor truncation in `min_frames`
makes the padded duration fall short of the claimed exact 0.5 seconds
(the stock configuration rate 16000 / chunk 1024 truncates the same way:
7 frames, 0.448 seconds). -/
theorem padding_floor_cex :
    ((([[100]] : List Frame).length * 1 : ℚ) / 5 < 1 / 2) ∧
    (stop_recording
      { rate := 5, chunk := 1, recording := true, frames := [[100]], lastLevel := 0 }).2
      = some ([100, 0], 5) ∧
    ((([100, 0] : List ℤ).length : ℚ) / 5 ≠ 1 / 2) := by
  refine ⟨by norm_num, ?_, by norm_num⟩
  norm_num [stop_recording, stopFinalize, padFrames, minFrames, audioLevel, absInt16]

/-- C3 (amended): a non-empty recording shorter than the 0.5-second floor
is padded with silence to exactly `min_frames = int(0.5 * rate / chunk)`
frames, so the returned buffer has `min_frames * chunk` samples — a
duration strictly longer than what was captured but only the largest
whole-chunk duration not exceeding 0.5 seconds, which is strictly less
than 0.5 seconds whenever `chunk` does not divide `rate / 2`. -/
theorem stop_padding_floor (a : AudioCapture) (hrec : a.recording = true)
    (hne : a.frames ≠ []) (hlen : ∀ f ∈ a.frames, f.length = a.chunk)
    (hshort : a.frames.length < minFrames a.rate a.chunk)
    (hrate : 0 < a.rate) (samples : List ℤ) (srate : ℕ)
    (hres : (stop_recording a).2 = some (samples, srate)) :
    samples.length = minFrames a.rate a.chunk * a.chunk ∧
    a.frames.flatten.length < samples.length ∧
    (samples.length : ℚ) / (a.rate : ℚ) ≤ 1 / 2 := by
  have hchunk : 0 < a.chunk := by
    rcases Nat.eq_zero_or_pos a.chunk with h0 | h
    · simp [minFrames, h0] at hshort
    · exact h
  rw [stop_recording_result a hrec hne] at hres
  have hsamples : samples = (padFrames a.rate a.chunk a.frames).flatten := by
    by_cases hl : audioLevel (padFrames a.rate a.chunk a.frames).flatten < 50
    · rw [if_pos hl] at hres
      exact absurd hres (by simp)
    · rw [if_neg hl] at hres
      exact (Prod.mk.injEq _ _ _ _ ▸ Option.some.injEq _ _ ▸ hres).1.symm
  have hplen : ∀ f ∈ padFrames a.rate a.chunk a.frames, f.length = a.chunk := by
    intro f hf
    unfold padFrames at hf
    rw [if_pos hshort] at hf
    rcases List.mem_append.mp hf with hmem | hmem
    · exact hlen f hmem
    · rw [List.eq_of_mem_replicate hmem]
      exact List.length_replicate _ _
  have hpframes : (padFrames a.rate a.chunk a.frames).length = minFrames a.rate a.chunk := by
    unfold padFrames
    rw [if_pos hshort, List.length_append, List.length_replicate]
    omega
  have hlen1 : samples.length = minFrames a.rate a.chunk * a.chunk := by
    rw [hsamples, length_flatten_of_chunks a.chunk _ hplen, hpframes]
  refine ⟨hlen1, ?_, ?_⟩
  · rw [length_flatten_of_chunks a.chunk _ hlen, hlen1]
    exact (Nat.mul_lt_mul_right hchunk).mpr hshort
  · have hmul : minFrames a.rate a.chunk * a.chunk * 2 ≤ a.rate := by
      have h1 : a.rate / (2 * a.chunk) * (2 * a.chunk) ≤ a.rate :=
        Nat.div_mul_le_self a.rate (2 * a.chunk)
      calc minFrames a.rate a.chunk * a.chunk * 2
          = a.rate / (2 * a.chunk) * (2 * a.chunk) := by unfold minFrames; ring
        _ ≤ a.rate := h1
    rw [hlen1, div_le_div_iff₀ (by exact_mod_cast hrate) (by norm_num : (0 : ℚ) < 2)]
    calc ((minFrames a.rate a.chunk * a.chunk : ℕ) : ℚ) * 2
        = ((minFrames a.rate a.chunk * a.chunk * 2 : ℕ) : ℚ) := by push_cast; ring
      _ ≤ ((a.rate : ℕ) : ℚ) := by exact_mod_cast hmul
      _ = 1 * (a.rate : ℚ) := by ring

/-- C3 witness: concrete instance of `stop_padding_floor` at rate 5,
chunk 1, one captured frame. -/
theorem stop_padding_floor_witness :
    (stop_recording
      { rate := 5, chunk := 1, recording := true, frames := [[100]], lastLevel := 0 }).2
      = some ([100, 0], 5) ∧
    ([100, 0] : List ℤ).length = minFrames 5 1 * 1 ∧
    (([100, 0] : List ℤ).length : ℚ) / ((5 : ℕ) : ℚ) ≤ 1 / 2 := by
  have hres : (stop_recording
      { rate := 5, chunk := 1, recording := true, frames := [[100]], lastLevel := 0 }).2
      = some ([100, 0], 5) := by
    norm_num [stop_recording, stopFinalize, padFrames, minFrames, audioLevel, absInt16]
  have h := stop_padding_floor
    { rate := 5, chunk := 1, recording := true, frames := [[100]], lastLevel := 0 }
    rfl (by decide) (by decide) (by decide) (by decide) [100, 0] 5 hres
  exact ⟨hres, h.1, h.2.2⟩

/-! ## Claim C5 -/

/-- C5 counterexample: after `stop_recording` returns, the capture is
back in the idle state (`recording = false`) but the frame buffer still
holds the finalized (padded) frames — `stop_recording` never clears
`self.frames`; only the next `start_recording` does (the buffer is kept
so `_process_audio` can persist it via `save_to_file` on transcription
failure).  This refutes the claimed invariant that `frames` is empty in
every idle state. -/
theorem idle_frames_nonempty_cex :
    ((stop_recording
      { rate := 5, chunk := 1, recording := true, frames := [[100]], lastLevel := 0 }).1).recording
      = false ∧
    ((stop_recording
      { rate := 5, chunk := 1, recording := true, frames := [[100]], lastLevel := 0 }).1).frames
      = [[100], [0]] := by
  constructor <;>
    norm_num [stop_recording, stopFinalize, padFrames, minFrames, audioLevel, absInt16]

/-- C5 (amended): the frame buffer is empty in the initial idle state and
is cleared at the start of every recording (`start_recording` empties it
before setting the flag); after a stop the buffer retains the finalized
frames until the next start. -/
theorem frames_empty_until_start (rate chunk : ℕ) (a : AudioCapture)
    (h : a.recording = false) :
    (AudioCapture.init rate chunk).frames = [] ∧
    (AudioCapture.init rate chunk).recording = false ∧
    (start_recording a).frames = [] ∧
    (start_recording a).recording = true := by
  refine ⟨rfl, rfl, ?_, ?_⟩ <;> simp [start_recording, h]

/-- C5 witness: concrete instance of `frames_empty_until_start`. -/
theorem frames_empty_until_start_witness :
    ({ rate := 2, chunk := 1, recording := false, frames := [[7]], lastLevel := 3 }
        : AudioCapture).recording = false ∧
    (start_recording
      { rate := 2, chunk := 1, recording := false, frames := [[7]], lastLevel := 3 }).frames
      = [] := by
  exact ⟨rfl,
    (frames_empty_until_start 2 1
      { rate := 2, chunk := 1, recording := false, frames := [[7]], lastLevel := 3 }
      rfl).2.2.1⟩

/-! ## Claim C10 -/

/-- C10 counterexample: a short recording consisting of the single
full-scale negative sample -32768 (rate 5, chunk 1, padded to
`[-32768, 0]`).  numpy's int16 absolute value wraps at -32768, so the
program computes a padded level of (-32768 + 0)/2 = -16384 — which is
not the mean absolute amplitude of the padded buffer (that is 16384) —
and this computed level is strictly GREATER than the captured-alone
computed level -32768: padding raises it, inverting the claimed strict
decrease. -/
theorem padded_level_inversion_cex :
    audioLevel (padFrames 5 1 [[-32768]]).flatten = -16384 ∧
    specMeanAbs (padFrames 5 1 [[-32768]]).flatten = 16384 ∧
    ((stop_recording
      { rate := 5, chunk := 1, recording := true, frames := [[-32768]],
        lastLevel := 0 }).1).lastLevel = -16384 ∧
    audioLevel ([[-32768]] : List Frame).flatten = -32768 ∧
    ¬ (audioLevel (padFrames 5 1 [[-32768]]).flatten
        < audioLevel ([[-32768]] : List Frame).flatten) := by
  refine ⟨?_, ?_, ?_, ?_, ?_⟩ <;>
    norm_num [audioLevel, specMeanAbs, absInt16, padFrames, minFrames,
      stop_recording, stopFinalize]

/-- C10 (amended): for a non-empty recording shorter than the 0.5-second
floor whose captured samples are not all zero and contain no full-scale
negative sample -32768, the level that `stop_recording` stores and uses
for its silence-rejection decision is the computed `np.abs` mean of the
padded buffer, which under these hypotheses equals the spec's mean
absolute amplitude, and appending silence strictly lowers it relative to
the captured samples alone; a buffer containing -32768 samples can
instead see its computed level rise, because numpy's int16 absolute
value wraps there. -/
theorem padded_level_strictly_lower (a : AudioCapture) (hrec : a.recording = true)
    (hne : a.frames ≠ []) (hlen : ∀ f ∈ a.frames, f.length = a.chunk)
    (hshort : a.frames.length < minFrames a.rate a.chunk)
    (hno : ∀ s ∈ a.frames.flatten, s ≠ (-32768 : ℤ))
    (hnz : (a.frames.flatten.any fun s => s != 0) = true) :
    ((stop_recording a).1).lastLevel =
      audioLevel (padFrames a.rate a.chunk a.frames).flatten ∧
    ((stop_recording a).2 = none ↔
      audioLevel (padFrames a.rate a.chunk a.frames).flatten < 50) ∧
    audioLevel (padFrames a.rate a.chunk a.frames).flatten =
      specMeanAbs (padFrames a.rate a.chunk a.frames).flatten ∧
    audioLevel (padFrames a.rate a.chunk a.frames).flatten <
      audioLevel a.frames.flatten := by
  have hchunk : 0 < a.chunk := by
    rcases Nat.eq_zero_or_pos a.chunk with h0 | h
    · simp [minFrames, h0] at hshort
    · exact h
  have hno_pad : ∀ s ∈ (padFrames a.rate a.chunk a.frames).flatten, s ≠ (-32768 : ℤ) := by
    intro s hs
    rw [flatten_padFrames a.rate a.chunk a.frames hshort] at hs
    rcases List.mem_append.mp hs with hmem | hmem
    · exact hno s hmem
    · rw [List.eq_of_mem_replicate hmem]
      decide
  refine ⟨by rw [stop_recording_state a hrec hne], ?_, ?_, ?_⟩
  · rw [stop_recording_result a hrec hne]
    by_cases hl : audioLevel (padFrames a.rate a.chunk a.frames).flatten < 50
    · simp [hl]
    · simp [hl]
  · unfold audioLevel specMeanAbs
    have hmapeq : ((padFrames a.rate a.chunk a.frames).flatten.map
          fun s => ((absInt16 s : ℚ)))
        = ((padFrames a.rate a.chunk a.frames).flatten.map
          fun s => ((s.natAbs : ℚ))) := by
      refine List.map_congr_left ?_
      intro s hs
      rw [absInt16_of_ne s (hno_pad s hs)]
      exact Int.cast_natCast s.natAbs
    rw [hmapeq]
  · rcases List.any_eq_true.mp hnz with ⟨s, hs, hsne⟩
    have hsne' : s ≠ 0 := by simpa using hsne
    set S : ℚ := (a.frames.flatten.map fun s => ((absInt16 s : ℚ))).sum with hS
    have hSpos : 0 < S := by
      have hmem : ((absInt16 s : ℚ)) ∈ a.frames.flatten.map fun s => ((absInt16 s : ℚ)) :=
        List.mem_map.mpr ⟨s, hs, rfl⟩
      have hle : ((absInt16 s : ℚ)) ≤ S := by
        refine List.single_le_sum ?_ _ hmem
        intro x hx
        rcases List.mem_map.mp hx with ⟨u, hu, rfl⟩
        exact absInt16_nonneg u (hno u hu)
      have hspos : (0 : ℚ) < ((absInt16 s : ℚ)) := by
        rw [absInt16_of_ne s (hno s hs)]
        have h1 : s.natAbs ≠ 0 := Int.natAbs_ne_zero.mpr hsne'
        have h2 : 0 < s.natAbs := Nat.pos_of_ne_zero h1
        exact_mod_cast h2
      exact lt_of_lt_of_le hspos hle
    have hn : 0 < a.frames.flatten.length := by
      rw [length_flatten_of_chunks a.chunk _ hlen]
      have : 0 < a.frames.length := List.length_pos.mpr hne
      exact Nat.mul_pos this hchunk
    have hk : 0 < (minFrames a.rate a.chunk - a.frames.length) * a.chunk :=
      Nat.mul_pos (by omega) hchunk
    rw [flatten_padFrames a.rate a.chunk a.frames hshort, audioLevel_append_zeros]
    unfold audioLevel
    rw [← hS]
    have hcast : ((a.frames.flatten.length : ℚ))
        < (a.frames.flatten.length : ℚ)
          + (((minFrames a.rate a.chunk - a.frames.length) * a.chunk : ℕ) : ℚ) := by
      have : (0 : ℚ) < (((minFrames a.rate a.chunk - a.frames.length) * a.chunk : ℕ) : ℚ) := by
        exact_mod_cast hk
      linarith
    exact div_lt_div_of_pos_left hSpos (by exact_mod_cast hn) hcast

/-- C10 witness: concrete instance of `padded_level_strictly_lower` — one
frame `[100]` at rate 5, chunk 1 (no full-scale negative samples): the
padded level 50 is strictly below the captured level 100. -/
theorem padded_level_strictly_lower_witness :
    ((stop_recording
      { rate := 5, chunk := 1, recording := true, frames := [[100]], lastLevel := 0 }).1).lastLevel
      = audioLevel (padFrames 5 1 [[100]]).flatten ∧
    audioLevel (padFrames 5 1 [[100]]).flatten < audioLevel ([[100]] : List Frame).flatten := by
  have h := padded_level_strictly_lower
    { rate := 5, chunk := 1, recording := true, frames := [[100]], lastLevel := 0 }
    rfl (by decide) (by decide) (by decide) (by decide) (by decide)
  exact ⟨h.1, h.2.2.2⟩

/-! ## Claim C4 -/

theorem padFrames_flatten_zero (rate chunk : ℕ) (fs : List Frame)
    (hzero : ∀ f ∈ fs, ∀ s ∈ f, s = (0 : ℤ)) :
    ∀ s ∈ (padFrames rate chunk fs).flatten, s = (0 : ℤ) := by
  intro s hs
  rcases List.mem_flatten.mp hs with ⟨f, hf, hsf⟩
  unfold padFrames at hf
  by_cases h : fs.length < minFrames rate chunk
  · rw [if_pos h] at hf
    rcases List.mem_append.mp hf with hmem | hmem
    · exact hzero f hmem s hsf
    · rw [List.eq_of_mem_replicate hmem] at hsf
      exact List.eq_of_mem_replicate hsf
  · rw [if_neg h] at hf
    exact hzero f hf s hsf

/-- C4 counterexample: a toggle that stops a 0.1-second all-zero
recording (rate 10, chunk 1, one zero frame) computes `audioLevel = 0.0`
and `stop_recording` returns `None`, so the toggle dispatches no
background task and the engine is never called — but, contrary to the
claim, no hardware-failure notification is sent: the only events are the
state-file write and the generic "Processing speech..." notification
from the recording-state observer (the hardware-failure diagnostic lives
in `_process_audio`, which never runs because nothing was dispatched). -/
theorem zero_level_no_notification_cex :
    audioLevel (padFrames 10 1 [[0]]).flatten = 0 ∧
    (stop_recording
      { rate := 10, chunk := 1, recording := true, frames := [[0]], lastLevel := 7 }).2
      = none ∧
    (toggle_recording { notifications := true, notificationTimeout := 2 }
      { isRec := true, initialized := true, lastToggleTime := none,
        capture := { rate := 10, chunk := 1, recording := true, frames := [[0]], lastLevel := 7 },
        stateFile := "recording" } 100 100).2
      = [Event.writeState "idle", Event.notify "HyprSTT" "Processing speech..."] ∧
    dispatchIds
      (toggle_recording { notifications := true, notificationTimeout := 2 }
        { isRec := true, initialized := true, lastToggleTime := none,
          capture := { rate := 10, chunk := 1, recording := true, frames := [[0]], lastLevel := 7 },
          stateFile := "recording" } 100 100).2
      = [] ∧
    mentionsNotify
      (toggle_recording { notifications := true, notificationTimeout := 2 }
        { isRec := true, initialized := true, lastToggleTime := none,
          capture := { rate := 10, chunk := 1, recording := true, frames := [[0]], lastLevel := 7 },
          stateFile := "recording" } 100 100).2
      hardwareFailureMsg
      = false := by
  refine ⟨?_, ?_, ?_, ?_, ?_⟩
  · norm_num [audioLevel, absInt16, padFrames, minFrames]
  · norm_num [stop_recording, stopFinalize, padFrames, minFrames, audioLevel, absInt16]
  · norm_num [toggle_recording, debounceReject, controllerStop, controllerStart,
      onRecordingChanged, writeStateFile, stopFinalize, padFrames, minFrames, audioLevel,
      absInt16]
  · norm_num [toggle_recording, debounceReject, controllerStop, controllerStart,
      onRecordingChanged, writeStateFile, stopFinalize, padFrames, minFrames, audioLevel,
      absInt16, dispatchIds]
  · refine Eq.trans ?_ (by decide :
      (("Processing speech..." : String) == hardwareFailureMsg) = false)
    norm_num [toggle_recording, debounceReject, controllerStop, controllerStart,
      onRecordingChanged, writeStateFile, stopFinalize, padFrames, minFrames, audioLevel,
      absInt16, mentionsNotify]

/-- C4 (amended): for an accepted toggle stopping a recording whose
captured frames are entirely zero-valued samples, `stop_recording`
computes and stores `audioLevel = 0.0` and returns `None`, the toggle
dispatches no background task (so the transcription engine is never
called), and no hardware-failure notification is sent — the only
notification the toggle can emit in this case is the generic
recording-state message, and the hardware-failure diagnostic of the
background pipeline is unreachable because no pipeline is dispatched. -/
theorem zero_level_no_dispatch (cfg : Config) (c : Controller) (now tid : ℚ)
    (hinit : c.initialized = true) (hdeb : debounceReject c now = false)
    (hrec : c.isRec = true) (hcaprec : c.capture.recording = true)
    (hne : c.capture.frames ≠ [])
    (hzero : ∀ f ∈ c.capture.frames, ∀ s ∈ f, s = (0 : ℤ)) :
    ((stop_recording c.capture).1).lastLevel = 0 ∧
    (stop_recording c.capture).2 = none ∧
    dispatchIds (toggle_recording cfg c now tid).2 = [] ∧
    mentionsNotify (toggle_recording cfg c now tid).2 hardwareFailureMsg = false := by
  have hlvl : audioLevel (padFrames c.capture.rate c.capture.chunk c.capture.frames).flatten = 0 :=
    audioLevel_all_zero _ (padFrames_flatten_zero _ _ _ hzero)
  have hlast : ((stop_recording c.capture).1).lastLevel = 0 := by
    rw [stop_recording_state c.capture hcaprec hne]
    exact hlvl
  have hnone : (stop_recording c.capture).2 = none := by
    rw [stop_recording_result c.capture hcaprec hne, if_pos (by rw [hlvl]; norm_num)]
  have hfin : (stopFinalize { c.capture with recording := false }).2 = none := by
    have : stop_recording c.capture
        = stopFinalize { c.capture with recording := false } := by
      unfold stop_recording
      rw [if_pos hcaprec]
    rw [← this]
    exact hnone
  have hevs := toggle_stop_events cfg c now tid hinit hdeb hrec hcaprec
  rw [hfin] at hevs
  rw [hevs]
  by_cases hn : cfg.notifications
  · refine ⟨hlast, hnone, ?_, ?_⟩ <;>
      simp [hn, dispatchIds, mentionsNotify, hardwareFailureMsg]
  · refine ⟨hlast, hnone, ?_, ?_⟩ <;>
      simp [hn, dispatchIds, mentionsNotify, hardwareFailureMsg]

/-- C4 witness: concrete instance of `zero_level_no_dispatch` on a
0.1-second all-zero recording. -/
theorem zero_level_no_dispatch_witness :
    ((stop_recording
      { rate := 10, chunk := 1, recording := true, frames := [[0]], lastLevel := 7 }).1).lastLevel
      = 0 ∧
    dispatchIds
      (toggle_recording { notifications := false, notificationTimeout := 2 }
        { isRec := true, initialized := true, lastToggleTime := some 0,
          capture := { rate := 10, chunk := 1, recording := true, frames := [[0]], lastLevel := 7 },
          stateFile := "recording" } 100 100).2
      = [] := by
  have h := zero_level_no_dispatch { notifications := false, notificationTimeout := 2 }
    { isRec := true, initialized := true, lastToggleTime := some 0,
      capture := { rate := 10, chunk := 1, recording := true, frames := [[0]], lastLevel := 7 },
      stateFile := "recording" } 100 100
    rfl (by norm_num [debounceReject]) rfl rfl (by decide) (by decide)
  exact ⟨h.1, h.2.2.1⟩

/-! ## Claim C8 -/

/-- Event trace of an accepted toggle taken in the stop direction while
the capture object is not actually recording (`stop_recording` returns
`None` immediately): no events at all. -/
theorem toggle_stop_mismatch_events (cfg : Config) (c : Controller) (now tid : ℚ)
    (hinit : c.initialized = true) (hdeb : debounceReject c now = false)
    (hrec : c.isRec = true) (hcap : c.capture.recording = false) :
    (toggle_recording cfg c now tid).2 = [] := by
  unfold toggle_recording
  rw [if_neg (by simp [hinit] : ¬ c.initialized = false)]
  rw [if_neg (by simp [hdeb] : ¬ debounceReject c now = true)]
  rw [if_pos (show ({ c with lastToggleTime := some now } : Controller).isRec = true from hrec)]
  have hstop : controllerStop cfg { c with lastToggleTime := some now }
      = ({ c with lastToggleTime := some now }, [], none) := by
    unfold controllerStop
    rw [if_neg (by simp [hcap])]
  show (match (controllerStop cfg { c with lastToggleTime := some now }).2.2 with
        | some (samples, srate) =>
            ((controllerStop cfg { c with lastToggleTime := some now }).1,
             (controllerStop cfg { c with lastToggleTime := some now }).2.1
               ++ [Event.dispatch (pyInt tid) samples srate])
        | none =>
            ((controllerStop cfg { c with lastToggleTime := some now }).1,
             (controllerStop cfg { c with lastToggleTime := some now }).2.1)).2
      = []
  rw [hstop]

/-- Event trace of an accepted toggle taken in the start direction: the
state-file write and the start notification, or nothing when the capture
object was already recording. -/
theorem toggle_start_events (cfg : Config) (c : Controller) (now tid : ℚ)
    (hinit : c.initialized = true) (hdeb : debounceReject c now = false)
    (hrec : c.isRec = false) :
    (toggle_recording cfg c now tid).2 =
      (if c.capture.recording then []
       else Event.writeState "recording" ::
         (if cfg.notifications then
           [Event.notify "HyprSTT" "Recording started..."] else [])) := by
  unfold toggle_recording
  rw [if_neg (by simp [hinit] : ¬ c.initialized = false)]
  rw [if_neg (by simp [hdeb] : ¬ debounceReject c now = true)]
  rw [if_neg (show ¬ ({ c with lastToggleTime := some now } : Controller).isRec = true by
    simp [hrec])]
  by_cases hcap : c.capture.recording
  · have hstart : controllerStart cfg { c with lastToggleTime := some now }
        = ({ c with lastToggleTime := some now }, []) := by
      unfold controllerStart
      rw [if_pos hcap]
    rw [hstart, if_pos hcap]
  · have hcap' : c.capture.recording = false := by simpa using hcap
    rw [(controllerStart_parts cfg { c with lastToggleTime := some now }
      (by simpa using hcap)).1, onRecordingChanged_events]
    simp [hcap']

/-- C8: every write to the on-disk state file replaces its content as a
whole with the written token; the initial write and every
recording-state change write exactly one of the literal tokens `idle`,
`recording`, `processing` (the controller only ever writes the first
two), and after a recording-state change the file content is
`recording` precisely when `is_recording` is true, so the flag and the
state-file mirror agree once the write completes.  The token property
holds for every event a toggle can emit. -/
theorem state_file_writes (cfg : Config) (c : Controller) (b : Bool) (now tid : ℚ)
    (cap : AudioCapture) (inited : Bool) (s : String) :
    (writeStateFile c s).1.stateFile = s ∧
    (writeStateFile c s).2 = [Event.writeState s] ∧
    (Controller.init cap inited).stateFile = "idle" ∧
    ((onRecordingChanged cfg c b).1).isRec = b ∧
    ((onRecordingChanged cfg c b).1).stateFile =
      (if ((onRecordingChanged cfg c b).1).isRec then "recording" else "idle") ∧
    stateTokenCheck (onRecordingChanged cfg c b).2 = true ∧
    stateTokenCheck (toggle_recording cfg c now tid).2 = true := by
  refine ⟨rfl, rfl, rfl, (onRecordingChanged_fields cfg c b).2.2.2.1, ?_, ?_, ?_⟩
  · rw [(onRecordingChanged_fields cfg c b).2.2.2.1,
      (onRecordingChanged_fields cfg c b).2.2.2.2]
  · rw [onRecordingChanged_events]
    cases b <;> by_cases hn : cfg.notifications <;> simp [stateTokenCheck, hn]
  · by_cases hi : c.initialized = true
    · by_cases hd : debounceReject c now = true
      · have : toggle_recording cfg c now tid = (c, []) := by
          unfold toggle_recording
          rw [if_neg (by simp [hi] : ¬ c.initialized = false), if_pos hd]
        rw [this]
        rfl
      · have hd' : debounceReject c now = false := by simpa using hd
        by_cases hr : c.isRec = true
        · by_cases hcap : c.capture.recording = true
          · rw [toggle_stop_events cfg c now tid hi hd' hr hcap]
            rcases (stopFinalize { c.capture with recording := false }).2 with _ | ⟨samples, srate⟩
            · by_cases hn : cfg.notifications <;> simp [stateTokenCheck, hn]
            · by_cases hn : cfg.notifications <;> simp [stateTokenCheck, hn]
          · rw [toggle_stop_mismatch_events cfg c now tid hi hd' hr (by simpa using hcap)]
            rfl
        · have hr' : c.isRec = false := by simpa using hr
          rw [toggle_start_events cfg c now tid hi hd' hr']
          by_cases hcap : c.capture.recording <;>
            by_cases hn : cfg.notifications <;> simp [stateTokenCheck, hcap, hn]
    · have : toggle_recording cfg c now tid = (c, []) := by
        unfold toggle_recording
        rw [if_pos (by simpa using hi)]
      rw [this]
      rfl

/-! ## Claim C6 -/

/-- C6: for every successfully constructed `WhisperProcessor` (the
constructor propagates a `RuntimeError` on model-load failure, so a
constructed processor always holds a loaded model and the
`"Model not loaded"` raise at the top of `transcribe_audio` is
unreachable), `transcribe_audio` raises no exception to its caller for
any input: zero or very quiet audio and every engine failure are
swallowed and mapped to the empty string, and on success the returned
text is the stripped engine output. -/
theorem transcribe_never_raises (language : String) (load : Except String Unit)
    (p : WhisperProcessor) (hp : WhisperProcessor.init language load = Except.ok p)
    (samples : List ℤ) (engine : EngineOutcome) :
    transcribeTotalCheck p samples engine = true := by
  have hmodel : p.model = some () := by
    cases load with
    | ok u =>
        unfold WhisperProcessor.init at hp
        cases hp
        rfl
    | error m => simp [WhisperProcessor.init] at hp
  unfold transcribeTotalCheck transcribeOp
  rw [hmodel]
  by_cases h0 : audioLevel samples = 0
  · simp [h0]
  · by_cases h30 : audioLevel samples < 30
    · simp [h0, h30]
    · cases engine <;> simp [h0, h30]

/-- C6 witness: a processor built from a successful model load, applied
to a loud sample and a successful engine call. -/
theorem transcribe_never_raises_witness :
    WhisperProcessor.init "en" (Except.ok ())
      = Except.ok { language := "en", model := some (), lastLevel := 0 } ∧
    transcribeTotalCheck { language := "en", model := some (), lastLevel := 0 }
      [100] (EngineOutcome.ok " hello ") = true := by
  refine ⟨rfl, ?_⟩
  exact transcribe_never_raises "en" (Except.ok ())
    { language := "en", model := some (), lastLevel := 0 } rfl
    [100] (EngineOutcome.ok " hello ")

/-! ## Claim C7 -/

/-- C7 counterexample: with notifications disabled in the loaded config,
a pipeline run whose focused-window query raises an exception is caught
(the run still returns) but is converted into no notification at all —
the failure-notification call sits under `if
self.config["ui"]["notifications"]` — refuting the claim that every
exception in a dispatched pipeline run is converted into a single
failure notification. -/
theorem pipeline_silent_failure_cex :
    processBody { notifications := false, notificationTimeout := 2 } 5
      { language := "en", model := some (), lastLevel := 0 } [100]
      { windowQuery := Except.error "boom", saveDebug := Except.ok (),
        micProbe := Except.ok false, injectStep := Except.ok () }
      (EngineOutcome.ok "hello")
      = Except.error ("boom", { language := "en", model := some (), lastLevel := 0 }) ∧
    (processRun { notifications := false, notificationTimeout := 2 } 5
      { language := "en", model := some (), lastLevel := 0 } [100]
      { windowQuery := Except.error "boom", saveDebug := Except.ok (),
        micProbe := Except.ok false, injectStep := Except.ok () }
      (EngineOutcome.ok "hello")).1
      = [] := by
  exact ⟨rfl, rfl⟩

/-- C7 (amended): every exception raised during a background pipeline
run is caught — the run always returns, never crashes the thread, and
the controller state (is_recording, initialized, everything else) passes
through unchanged; when notifications are enabled the exception is
converted into exactly one failure notification, while with
notifications disabled it is only logged and no notification is
emitted. -/
theorem pipeline_failure_semantics (cfg : Config) (c : Controller)
    (p : WhisperProcessor) (samples : List ℤ) (w : PipelineWorld)
    (engine : EngineOutcome) :
    (processCtrl cfg c p samples w engine).1 = c ∧
    pipelineCatchCheck cfg c.capture.lastLevel p samples w engine = true := by
  refine ⟨rfl, ?_⟩
  unfold pipelineCatchCheck
  rcases h : processBody cfg c.capture.lastLevel p samples w engine with e | r
  · rcases e with ⟨msg, p1⟩
    unfold processRun
    rw [h]
    simp
  · rcases r with ⟨evs, p1⟩
    unfold processRun
    rw [h]
    simp

/-! ## Claim C9 -/

theorem dispatchIds_append (evs1 evs2 : List Event) :
    dispatchIds (evs1 ++ evs2) = dispatchIds evs1 ++ dispatchIds evs2 := by
  unfold dispatchIds
  exact List.filterMap_append evs1 evs2 _

/-- Python truncation toward zero is monotone. -/
theorem pyInt_mono (a b : ℚ) (hab : a ≤ b) : pyInt a ≤ pyInt b := by
  unfold pyInt
  by_cases ha : 0 ≤ a
  · rw [if_pos ha, if_pos (le_trans ha hab)]
    exact Int.floor_le_floor hab
  · by_cases hb : 0 ≤ b
    · rw [if_neg ha, if_pos hb]
      have h1 : ⌈a⌉ ≤ ⌈(0 : ℚ)⌉ := Int.ceil_mono (le_of_lt (lt_of_not_le ha))
      rw [Int.ceil_zero] at h1
      have h2 : (0 : ℤ) ≤ ⌊b⌋ := Int.floor_nonneg.mpr hb
      omega
    · rw [if_neg ha, if_neg hb]
      exact Int.ceil_mono hab

/-- A toggle dispatches either nothing or exactly one background task
with identifier `int(tid)` taken from the second clock read. -/
theorem toggle_dispatch_cases (cfg : Config) (c : Controller) (t tid : ℚ) :
    dispatchIds (toggle_recording cfg c t tid).2 = [] ∨
    dispatchIds (toggle_recording cfg c t tid).2 = [pyInt tid] := by
  by_cases hi : c.initialized = true
  · by_cases hd : debounceReject c t = true
    · left
      have hval : toggle_recording cfg c t tid = (c, []) := by
        unfold toggle_recording
        rw [if_neg (by simp [hi]), if_pos hd]
      rw [hval]
      rfl
    · have hd2 : debounceReject c t = false := by simpa using hd
      by_cases hr : c.isRec = true
      · by_cases hcap : c.capture.recording = true
        · have hevs := toggle_stop_events cfg c t tid hi hd2 hr hcap
          cases hX : (stopFinalize { c.capture with recording := false }).2 with
          | none =>
              left
              rw [hevs, hX, dispatchIds_append]
              by_cases hn : cfg.notifications <;> simp [dispatchIds, hn]
          | some v =>
              rcases v with ⟨samples, srate⟩
              right
              rw [hevs, hX, dispatchIds_append]
              by_cases hn : cfg.notifications <;> simp [dispatchIds, hn]
        · left
          rw [toggle_stop_mismatch_events cfg c t tid hi hd2 hr (by simpa using hcap)]
          rfl
      · left
        rw [toggle_start_events cfg c t tid hi hd2 (by simpa using hr)]
        by_cases hcap : c.capture.recording <;> by_cases hn : cfg.notifications <;>
          simp [dispatchIds, hcap, hn]
  · left
    have hval : toggle_recording cfg c t tid = (c, []) := by
      unfold toggle_recording
      rw [if_pos (by simpa using hi)]
    rw [hval]
    rfl

/-- Bound induction over a system run: with sorted clock reads, every
dispatched identifier is at least `int(d)` for any lower bound `d` on
all reads, and the identifiers are non-decreasing in dispatch order. -/
theorem runSystem_dispatch_mono_aux (cfg : Config) (steps : List SysStep) :
    ∀ (c : Controller) (d : Option ℚ),
      List.Pairwise (· ≤ ·) (clockReads steps) →
      (∀ dd, d = some dd → ∀ r ∈ clockReads steps, dd ≤ r) →
      List.Pairwise (· ≤ ·) (dispatchIds (runSystem cfg c steps).2) ∧
      (∀ i ∈ dispatchIds (runSystem cfg c steps).2,
        ∀ dd, d = some dd → pyInt dd ≤ i) := by
  induction steps with
  | nil =>
      intro c d _ _
      constructor
      · exact List.Pairwise.nil
      · intro i hi
        simp [runSystem, dispatchIds] at hi
  | cons s steps ih =>
      intro c d hsort hbound
      cases s with
      | capture f =>
          have hrun : runSystem cfg c (SysStep.capture f :: steps)
              = runSystem cfg
                  (if c.capture.recording then { c with capture := appendFrame c.capture f }
                   else c)
                  steps := rfl
          have hcr : clockReads (SysStep.capture f :: steps) = clockReads steps := rfl
          rw [hcr] at hsort hbound
          rw [hrun]
          exact ih _ d hsort hbound
      | toggle t tid =>
          have hrun : (runSystem cfg c (SysStep.toggle t tid :: steps)).2
              = (toggle_recording cfg c t tid).2
                ++ (runSystem cfg (toggle_recording cfg c t tid).1 steps).2 := rfl
          have hcr : clockReads (SysStep.toggle t tid :: steps)
              = t :: tid :: clockReads steps := rfl
          rw [hcr] at hsort hbound
          have hsort1 : List.Pairwise (· ≤ ·) (tid :: clockReads steps) :=
            (List.pairwise_cons.mp hsort).2
          have hsort2 : List.Pairwise (· ≤ ·) (clockReads steps) :=
            (List.pairwise_cons.mp hsort1).2
          have htid_le : ∀ r ∈ clockReads steps, tid ≤ r :=
            (List.pairwise_cons.mp hsort1).1
          rw [hrun, dispatchIds_append]
          rcases toggle_dispatch_cases cfg c t tid with hids | hids
          · rw [hids, List.nil_append]
            refine ih _ d hsort2 ?_
            intro dd hdd r hr
            exact hbound dd hdd r (List.mem_cons_of_mem t (List.mem_cons_of_mem tid hr))
          · have haux := ih (toggle_recording cfg c t tid).1 (some tid) hsort2
              (by
                intro dd hdd r hr
                cases hdd
                exact htid_le r hr)
            rcases haux with ⟨hpw_rest, hge_rest⟩
            rw [hids]
            constructor
            · refine List.pairwise_cons.mpr ⟨?_, hpw_rest⟩
              intro i hi2
              exact hge_rest i hi2 tid rfl
            · intro i hi2 dd hdd
              have hdle : dd ≤ tid :=
                hbound dd hdd tid (List.mem_cons_of_mem t (List.mem_cons_self tid _))
              rcases List.mem_cons.mp hi2 with hi3 | hi3
              · rw [hi3]
                exact pyInt_mono dd tid hdle
              · exact le_trans (pyInt_mono dd tid hdle) (hge_rest i hi3 tid rfl)

/-- C9 counterexample: two record/stop cycles whose toggles obey the
500ms debounce rule and whose clock reads are monotone, yet both
dispatched sessions receive the same identifier 1.  The identifier is
`int(time.time())` from a read taken after `stop_recording` returns
(including the capture-thread join, bounded by 2 seconds), so the two id
reads - 1.1 and 1.75, each a plausible few hundred milliseconds after
their toggles at 0.6 and 1.7 - fall in the same wall-clock second even
though the toggles themselves are more than 500ms apart, refuting the
claimed uniqueness. -/
theorem dispatch_ids_collision_cex :
    List.Pairwise (· ≤ ·) (clockReads
      [SysStep.toggle (1 / 10) (1 / 10), SysStep.capture [100],
       SysStep.toggle (3 / 5) (11 / 10), SysStep.toggle (6 / 5) (6 / 5),
       SysStep.capture [100], SysStep.toggle (17 / 10) (7 / 4)]) ∧
    dispatchIds (runSystem { notifications := false, notificationTimeout := 2 }
      (Controller.init (AudioCapture.init 2 1) true)
      [SysStep.toggle (1 / 10) (1 / 10), SysStep.capture [100],
       SysStep.toggle (3 / 5) (11 / 10), SysStep.toggle (6 / 5) (6 / 5),
       SysStep.capture [100], SysStep.toggle (17 / 10) (7 / 4)]).2
      = [1, 1] := by
  constructor
  · show List.Pairwise (· ≤ ·)
      [(1 : ℚ) / 10, 1 / 10, 3 / 5, 11 / 10, 6 / 5, 6 / 5, 17 / 10, 7 / 4]
    norm_num [List.pairwise_cons]
  · norm_num [runSystem, toggle_recording, debounceReject, controllerStop,
      controllerStart, onRecordingChanged, writeStateFile, appendFrame,
      stopFinalize, padFrames, minFrames, audioLevel, absInt16, pyInt,
      dispatchIds, Controller.init, AudioCapture.init]
    rfl

/-- C9 (amended): over any interleaving of capture-loop reads and toggle
calls starting from a freshly initialized controller, with a monotone
clock (the successive `time.time()` reads form a sorted list), the
`transcription_id = int(time.time())` values of the dispatched
background sessions are non-decreasing in dispatch order - but they are
not necessarily distinct: the identifier is truncated to whole seconds
from a clock read taken after `stop_recording` returns (with its
bounded join), so two dispatches whose accepted toggles are more than
500ms apart can still fall within the same wall-clock second and share
an identifier. -/
theorem dispatch_ids_nondecreasing (cfg : Config) (cap : AudioCapture)
    (inited : Bool) (steps : List SysStep)
    (hsort : List.Pairwise (· ≤ ·) (clockReads steps)) :
    List.Pairwise (· ≤ ·)
      (dispatchIds (runSystem cfg (Controller.init cap inited) steps).2) := by
  refine (runSystem_dispatch_mono_aux cfg steps (Controller.init cap inited) none hsort
    ?_).1
  intro dd hdd
  exact absurd hdd (by simp)

/-- C9 witness: two full record/stop cycles with monotone clock reads,
dispatching two sessions with identifiers 1 and 2. -/
theorem dispatch_ids_nondecreasing_witness :
    List.Pairwise (· ≤ ·)
      (dispatchIds (runSystem { notifications := false, notificationTimeout := 2 }
        (Controller.init (AudioCapture.init 2 1) true)
        [SysStep.toggle 0 0, SysStep.capture [100], SysStep.toggle 1 (3 / 2),
         SysStep.toggle 2 2, SysStep.capture [100], SysStep.toggle 3 (7 / 2)]).2) := by
  refine dispatch_ids_nondecreasing _ _ _ _ ?_
  show List.Pairwise (· ≤ ·) [(0 : ℚ), 0, 1, 3 / 2, 2, 2, 3, 7 / 2]
  norm_num [List.pairwise_cons]

end HyprSTT
